import Mathlib

/-!
Verification of the teacher duty-roster scheduling core (src/App.tsx).

Shallow embedding conventions:

* A calendar date at local midnight is represented by its day number
  (days since an arbitrary fixed epoch), so the type of dates is Nat.
  The source compares dates with < and > on Date objects normalized to
  local midnight, which is exactly the order on day numbers, and steps
  with setDate(getDate() + 1), which is succ on day numbers.
* The source keys the override map (manualChanges) and the color map
  (dateColors) by the string formatDate(date) = YYYY-MM-DD; formatDate
  is injective on dates at local midnight, so the maps are embedded as
  functions from day numbers, with absence of a key embedded as none.
* A visible month is the pair (monthFirst, monthLen): the day number of
  its first day and its number of days.  getDatesInMonth of the source
  returns exactly the consecutive dates monthFirst, monthFirst + 1, ...,
  monthFirst + monthLen - 1.
* JavaScript truthiness on the looked-up override value (the source
  tests if (manualOverrideId)) is embedded explicitly: a value that is
  the empty string is falsy and takes the rotation branch, exactly as
  undefined (absence) does.
* The rotation cursor (teacherCycleIndex) is a JavaScript number that
  the source only ever sets to 0, increments, or resets to index + 1;
  it is embedded as Int, with the JS remainder operator embedded as
  Int.tmod (truncating remainder, sign of the dividend).  The array
  access teachers[cursor % teachers.length].id throws in JS when the
  index is out of range (element undefined); this possible failure is
  embedded by giving the walk the result type Option, where none is
  the crash case.
-/

namespace Roster

/-- A roster entry: src/types.ts, interface Teacher. -/
structure Teacher where
  id : String
  name : String
  deriving DecidableEq, Repr

/-- One output cell: src/types.ts, interface Shift. -/
structure Shift where
  date : Nat
  teacherId : Option String
  deriving DecidableEq, Repr

/-- The manualChanges map: date string to override value, absence is none. -/
abbrev Overrides := Nat → Option String

/-- The teacherIndexMap of generateSchedule:
teachers.forEach((t, i) => teacherIndexMap.set(t.id, i)).
Later entries with the same id overwrite earlier ones, as Map.set does. -/
def teacherIndexMap (teachers : List Teacher) : String → Option Nat :=
  teachers.enum.foldl (fun m p => fun s => if s = p.2.id then some p.1 else m s)
    (fun _ => none)

/-- The array access teachers[cursor % teachers.length] of the rotation
branch.  In JS, % on length 0 gives NaN and indexing returns undefined;
a negative truncating remainder also indexes out of range.  Both give
undefined, whose .id access throws; these are the none cases. -/
def rosterGet (teachers : List Teacher) (cursor : Int) : Option Teacher :=
  if teachers.length = 0 then none
  else if 0 ≤ Int.tmod cursor (teachers.length : Int) then
    teachers.get? (Int.tmod cursor (teachers.length : Int)).toNat
  else none

/-- The while loop of generateSchedule, walking day by day from ptr for a
given number of days, carrying teacherCycleIndex; builds the entries of
fullSchedule in date order.  The result is none when the roster access
of the rotation branch would throw in JS. -/
def fullScheduleAux (teachers : List Teacher) (ov : Overrides) :
    Nat → Nat → Int → Option (List (Nat × Option String))
  | 0, _, _ => some []
  | n + 1, ptr, cursor =>
    match ov ptr with
    | some s =>
      if s = "" then
        match rosterGet teachers cursor with
        | some t =>
          (fullScheduleAux teachers ov n (ptr + 1) (cursor + 1)).map
            (fun r => (ptr, some t.id) :: r)
        | none => none
      else if s = "__EMPTY__" then
        (fullScheduleAux teachers ov n (ptr + 1) cursor).map
          (fun r => (ptr, none) :: r)
      else
        match teacherIndexMap teachers s with
        | some i =>
          (fullScheduleAux teachers ov n (ptr + 1) ((i : Int) + 1)).map
            (fun r => (ptr, some s) :: r)
        | none =>
          (fullScheduleAux teachers ov n (ptr + 1) cursor).map
            (fun r => (ptr, none) :: r)
    | none =>
      match rosterGet teachers cursor with
      | some t =>
        (fullScheduleAux teachers ov n (ptr + 1) (cursor + 1)).map
          (fun r => (ptr, some t.id) :: r)
      | none => none

/-- getDatesInMonth of the source, for the month (monthFirst, monthLen). -/
def getDatesInMonth (monthFirst : Nat) (monthLen : Nat) : List Nat :=
  (List.range monthLen).map (fun j => monthFirst + j)

/-- The schedule useEffect of App: the teachers.length === 0 early case,
then generateSchedule with its early return when the start date is past
the last day of the visible month, the day-by-day walk from the start
date (teacherCycleIndex starting at 0), and the final mapping of the
visible month where dates before the start date become null and the
others are looked up in fullSchedule (with ?? null). -/
def computeShifts (teachers : List Teacher) (ov : Overrides) (startDate : Nat)
    (monthFirst : Nat) (monthLen : Nat) : Option (List Shift) :=
  if teachers.length = 0 then
    some ((getDatesInMonth monthFirst monthLen).map
      (fun d => { date := d, teacherId := none }))
  else if monthFirst + monthLen - 1 < startDate then
    some ((getDatesInMonth monthFirst monthLen).map
      (fun d => { date := d, teacherId := none }))
  else
    (fullScheduleAux teachers ov (monthFirst + monthLen - 1 + 1 - startDate)
        startDate 0).map (fun fullSchedule =>
      (getDatesInMonth monthFirst monthLen).map (fun d =>
        if d < startDate then { date := d, teacherId := none }
        else
          { date := d,
            teacherId :=
              match fullSchedule.find? (fun p => p.1 == d) with
              | some p => p.2
              | none => none }))

/-- The application state relevant to the handlers: the teachers list,
scheduleStartDate (the raw string of the date input), manualChanges and
dateColors. -/
structure AppState where
  teachers : List Teacher
  scheduleStartDate : String
  manualChanges : Overrides
  dateColors : Nat → Option String

/-- handleDeleteTeacher: rebuilds manualChanges keeping only the entries
whose value differs from the deleted id, and filters the teacher out of
the roster. -/
def handleDeleteTeacher (s : AppState) (teacherId : String) : AppState :=
  { s with
    manualChanges := fun d =>
      match s.manualChanges d with
      | some v => if v ≠ teacherId then some v else none
      | none => none,
    teachers := s.teachers.filter (fun t => t.id != teacherId) }

/-- handleUpdateShift: stores the new id under the date key when it is
truthy, otherwise stores the string __EMPTY__ under that key. -/
def handleUpdateShift (s : AppState) (date : Nat) (newTeacherId : Option String) :
    AppState :=
  { s with
    manualChanges := fun d =>
      if d = date then
        some (match newTeacherId with
              | some tid => if tid = "" then "__EMPTY__" else tid
              | none => "__EMPTY__")
      else s.manualChanges d }

/-- handleClearShift delegates to handleUpdateShift with null. -/
def handleClearShift (s : AppState) (date : Nat) : AppState :=
  handleUpdateShift s date none

/-- handleStartDateChange: when the new value is truthy (non-empty), sets
the start date and resets manualChanges and dateColors to empty. -/
def handleStartDateChange (s : AppState) (newDate : String) : AppState :=
  if newDate = "" then s
  else
    { s with
      scheduleStartDate := newDate,
      manualChanges := fun _ => none,
      dateColors := fun _ => none }

/-- The cursor transition of one day of the walk: how teacherCycleIndex
changes when the walk processes date d with cursor value c.  Stated on
Nat; the bridge to the Int cursor of fullScheduleAux is proved below. -/
def cursorStep (teachers : List Teacher) (ov : Overrides) (d : Nat) (c : Nat) : Nat :=
  match ov d with
  | some s =>
    if s = "" then c + 1
    else if s = "__EMPTY__" then c
    else
      match teacherIndexMap teachers s with
      | some i => i + 1
      | none => c
  | none => c + 1

/-- The cursor value after processing the given number of days starting
at ptr from initial value c. -/
def cursorFrom (teachers : List Teacher) (ov : Overrides) : Nat → Nat → Nat → Nat
  | c, _, 0 => c
  | c, ptr, j + 1 => cursorFrom teachers ov (cursorStep teachers ov ptr c) (ptr + 1) j

/-- The assignment the walk records for date d when the cursor is c. -/
def assignAt (teachers : List Teacher) (ov : Overrides) (d : Nat) (c : Nat) :
    Option String :=
  match ov d with
  | some s =>
    if s = "" then (teachers.get? (c % teachers.length)).map (fun t => t.id)
    else if s = "__EMPTY__" then none
    else
      match teacherIndexMap teachers s with
      | some _ => some s
      | none => none
  | none => (teachers.get? (c % teachers.length)).map (fun t => t.id)

/-- The assignment computeShifts gives to date d of the visible month. -/
def monthAssign (teachers : List Teacher) (ov : Overrides) (startDate : Nat)
    (d : Nat) : Option String :=
  if teachers.length = 0 then none
  else if d < startDate then none
  else assignAt teachers ov d (cursorFrom teachers ov 0 startDate (d - startDate))

/-! ### Basic lemmas about the walk -/

theorem range_succ_map {α : Type} (f : Nat → α) (n : Nat) :
    (List.range (n + 1)).map f = f 0 :: (List.range n).map (fun j => f (j + 1)) := by
  rw [List.range_succ_eq_map, List.map_cons, List.map_map]
  rfl

theorem rosterGet_ofNat (teachers : List Teacher) (h : teachers.length ≠ 0)
    (c : Nat) :
    rosterGet teachers (Int.ofNat c) = teachers.get? (c % teachers.length) := by
  have h1 : Int.tmod (Int.ofNat c) (teachers.length : Int) =
      Int.ofNat (c % teachers.length) := rfl
  unfold rosterGet
  rw [if_neg h, h1]
  rw [if_pos (by exact Int.ofNat_nonneg _)]
  rfl

theorem get?_mod_isSome (teachers : List Teacher) (h : teachers.length ≠ 0)
    (c : Nat) :
    ∃ t : Teacher, teachers.get? (c % teachers.length) = some t := by
  have hlt : c % teachers.length < teachers.length :=
    Nat.mod_lt _ (Nat.pos_of_ne_zero h)
  exact ⟨teachers.get ⟨c % teachers.length, hlt⟩, List.get?_eq_get hlt⟩

/-- One tail-shift of the walk entry list. -/
theorem walk_entries_succ (teachers : List Teacher) (ov : Overrides)
    (n : Nat) (ptr : Nat) (c : Nat) :
    (List.range (n + 1)).map (fun j =>
        (ptr + j, assignAt teachers ov (ptr + j) (cursorFrom teachers ov c ptr j))) =
      (ptr, assignAt teachers ov ptr c) ::
        (List.range n).map (fun j =>
          (ptr + 1 + j, assignAt teachers ov (ptr + 1 + j)
            (cursorFrom teachers ov (cursorStep teachers ov ptr c) (ptr + 1) j))) := by
  rw [range_succ_map]
  congr 1
  apply List.map_congr_left
  intro j _
  have h1 : ptr + (j + 1) = ptr + 1 + j := by omega
  show (ptr + (j + 1),
      assignAt teachers ov (ptr + (j + 1))
        (cursorFrom teachers ov (cursorStep teachers ov ptr c) (ptr + 1) j)) = _
  rw [h1]

/-- The walk of generateSchedule never fails for a non-empty roster and a
cursor that is a natural number, and its result is the list of per-day
entries described by assignAt and cursorFrom. -/
theorem fullScheduleAux_eq (teachers : List Teacher) (ov : Overrides)
    (h : teachers.length ≠ 0) (n : Nat) :
    ∀ (ptr : Nat) (c : Nat),
      fullScheduleAux teachers ov n ptr (Int.ofNat c) =
        some ((List.range n).map (fun j =>
          (ptr + j, assignAt teachers ov (ptr + j)
            (cursorFrom teachers ov c ptr j)))) := by
  induction n with
  | zero => intro ptr c; simp [fullScheduleAux]
  | succ n ih =>
    intro ptr c
    rw [walk_entries_succ]
    obtain ⟨t, ht⟩ := get?_mod_isSome teachers h c
    have ht2 : teachers[c % teachers.length]? = some t := by
      rw [← List.get?_eq_getElem?]
      exact ht
    have hofc : (Int.ofNat c) + 1 = Int.ofNat (c + 1) := rfl
    cases hov : ov ptr with
    | none =>
      simp only [fullScheduleAux, hov, rosterGet_ofNat teachers h c, ht, hofc,
        ih (ptr + 1) (c + 1), Option.map_some']
      simp [assignAt, cursorStep, hov, ht, ht2]
    | some s =>
      by_cases hs : s = ""
      · subst hs
        simp only [fullScheduleAux, hov, if_pos rfl,
          rosterGet_ofNat teachers h c, ht, hofc, ih (ptr + 1) (c + 1),
          Option.map_some']
        simp [assignAt, cursorStep, hov, ht, ht2]
      · by_cases hse : s = "__EMPTY__"
        · subst hse
          simp only [fullScheduleAux, hov, if_neg hs, if_pos rfl,
            ih (ptr + 1) c, Option.map_some']
          simp [assignAt, cursorStep, hov, hs]
        · cases hidx : teacherIndexMap teachers s with
          | none =>
            simp only [fullScheduleAux, hov, if_neg hs, if_neg hse, hidx,
              ih (ptr + 1) c, Option.map_some']
            simp [assignAt, cursorStep, hov, hs, hse, hidx]
          | some i =>
            have hofi : ((i : Nat) : Int) + 1 = Int.ofNat (i + 1) := rfl
            simp only [fullScheduleAux, hov, if_neg hs, if_neg hse, hidx, hofi,
              ih (ptr + 1) (i + 1), Option.map_some']
            simp [assignAt, cursorStep, hov, hs, hse, hidx]

/-- Looking a date up in a list of consecutively-dated entries. -/
theorem find?_range_map {α : Type} (n : Nat) :
    ∀ (g : Nat → α) (ptr d : Nat), ptr ≤ d → d < ptr + n →
      ((List.range n).map (fun j => (ptr + j, g j))).find? (fun p => p.1 == d) =
        some (d, g (d - ptr)) := by
  induction n with
  | zero => intro g ptr d h1 h2; omega
  | succ n ih =>
    intro g ptr d h1 h2
    rw [range_succ_map]
    by_cases hd : ptr = d
    · subst hd
      rw [List.find?_cons_of_pos]
      · simp
      · simp
    · rw [List.find?_cons_of_neg _ (by simp; omega)]
      have hshift : (List.range n).map (fun j => (ptr + (j + 1), g (j + 1))) =
          (List.range n).map (fun j => (ptr + 1 + j, (fun j' => g (j' + 1)) j)) := by
        apply List.map_congr_left
        intro j _
        have : ptr + (j + 1) = ptr + 1 + j := by omega
        rw [this]
      rw [hshift, ih (fun j' => g (j' + 1)) (ptr + 1) d (by omega) (by omega)]
      have : d - (ptr + 1) + 1 = d - ptr := by omega
      rw [this]

/-- computeShifts always succeeds and produces, for each day of the
visible month, the assignment described by monthAssign. -/
theorem computeShifts_eq (teachers : List Teacher) (ov : Overrides)
    (startDate : Nat) (monthFirst : Nat) (monthLen : Nat) :
    computeShifts teachers ov startDate monthFirst monthLen =
      some ((List.range monthLen).map (fun j =>
        { date := monthFirst + j,
          teacherId := monthAssign teachers ov startDate (monthFirst + j) })) := by
  unfold computeShifts getDatesInMonth
  by_cases h0 : teachers.length = 0
  · rw [if_pos h0]
    congr 1
    rw [List.map_map]
    apply List.map_congr_left
    intro j _
    simp [monthAssign, h0, Function.comp]
  · rw [if_neg h0]
    by_cases hLast : monthFirst + monthLen - 1 < startDate
    · rw [if_pos hLast]
      congr 1
      rw [List.map_map]
      apply List.map_congr_left
      intro j hj
      have hj' : j < monthLen := List.mem_range.mp hj
      have hbefore : monthFirst + j < startDate := by omega
      simp [monthAssign, h0, hbefore, Function.comp, if_neg h0]
    · rw [if_neg hLast, show (0 : Int) = Int.ofNat 0 from rfl,
        fullScheduleAux_eq teachers ov h0 (monthFirst + monthLen - 1 + 1 - startDate)
          startDate 0, Option.map_some']
      congr 1
      rw [List.map_map]
      apply List.map_congr_left
      intro j hj
      have hj' : j < monthLen := List.mem_range.mp hj
      by_cases hday : monthFirst + j < startDate
      · simp [monthAssign, h0, hday, Function.comp, if_neg h0]
      · have h1 : startDate ≤ monthFirst + j := by omega
        have h2 : monthFirst + j < startDate + (monthFirst + monthLen - 1 + 1 - startDate) := by
          omega
        simp only [Function.comp]
        rw [find?_range_map _ _ startDate (monthFirst + j) h1 h2]
        have h3 : startDate + (monthFirst + j - startDate) = monthFirst + j := by omega
        simp only [if_neg hday]
        simp [monthAssign, h0, hday, h3]

/-! ### Lemmas about the cursor evolution -/

theorem cursorFrom_add (teachers : List Teacher) (ov : Overrides) (a : Nat) :
    ∀ (b c : Nat) (ptr : Nat),
      cursorFrom teachers ov c ptr (a + b) =
        cursorFrom teachers ov (cursorFrom teachers ov c ptr a) (ptr + a) b := by
  induction a with
  | zero => intro b c ptr; simp [cursorFrom]
  | succ a ih =>
    intro b c ptr
    have h1 : a + 1 + b = (a + b) + 1 := by omega
    rw [h1]
    show cursorFrom teachers ov (cursorStep teachers ov ptr c) (ptr + 1) (a + b) = _
    rw [ih b (cursorStep teachers ov ptr c) (ptr + 1)]
    have h2 : ptr + 1 + a = ptr + (a + 1) := by omega
    rw [h2]
    rfl

theorem cursorFrom_inert (teachers : List Teacher) (ov : Overrides) (m : Nat) :
    ∀ (c : Nat) (ptr : Nat),
      (∀ x c', ptr ≤ x → x < ptr + m → cursorStep teachers ov x c' = c') →
      cursorFrom teachers ov c ptr m = c := by
  induction m with
  | zero => intro c ptr _; rfl
  | succ m ih =>
    intro c ptr hstep
    show cursorFrom teachers ov (cursorStep teachers ov ptr c) (ptr + 1) m = c
    rw [hstep ptr c (le_refl ptr) (by omega)]
    exact ih c (ptr + 1) (fun x c' hx1 hx2 => hstep x c' (by omega) (by omega))

theorem cursorFrom_none (teachers : List Teacher) (m : Nat) :
    ∀ (c : Nat) (ptr : Nat),
      cursorFrom teachers (fun _ => none) c ptr m = c + m := by
  induction m with
  | zero => intro c ptr; rfl
  | succ m ih =>
    intro c ptr
    show cursorFrom teachers (fun _ => none)
      (cursorStep teachers (fun _ => none) ptr c) (ptr + 1) m = c + (m + 1)
    rw [show cursorStep teachers (fun _ => none) ptr c = c + 1 from rfl, ih]
    omega

theorem get?_of_range_map {α : Type} (f : Nat → α) {j n : Nat} (hj : j < n) :
    ((List.range n).map f).get? j = some (f j) := by
  rw [List.get?_map, List.get?_eq_getElem?, List.getElem?_range hj, Option.map_some']

/-! ### Claim theorems -/

/-- C7: for an empty roster, whatever the start date and override map,
the generated output has one entry per calendar day of the visible month
(in date order) and every entry has assignment null. -/
theorem empty_roster_all_null (ov : Overrides) (startDate monthFirst monthLen : Nat) :
    (computeShifts [] ov startDate monthFirst monthLen).map
        (fun l => (l.map (fun sh => sh.date), l.map (fun sh => sh.teacherId))) =
      some ((List.range monthLen).map (fun j => monthFirst + j),
        List.replicate monthLen (none : Option String)) := by
  rw [computeShifts_eq, Option.map_some']
  have hma : ∀ d, monthAssign [] ov startDate d = none := fun d => by
    simp [monthAssign]
  simp only [hma, List.map_map]
  refine congrArg some (Prod.ext ?_ ?_)
  · rfl
  · show List.map ((fun sh => sh.teacherId) ∘ fun j =>
      ({ date := monthFirst + j, teacherId := none } : Shift)) (List.range monthLen) = _
    have hfun : ((fun sh => sh.teacherId) ∘ fun j =>
        ({ date := monthFirst + j, teacherId := none } : Shift)) =
        fun _ => (none : Option String) := rfl
    rw [hfun, List.map_const', List.length_range]

/-- C6: every visible-month date strictly before the start date is
assigned null, whatever the override map holds for it; consequently when
the start date is past the last day of the month, every date of the
month is assigned null. -/
theorem before_start_always_null (teachers : List Teacher) (ov : Overrides)
    (startDate monthFirst monthLen j : Nat) (hj : j < monthLen) :
    (monthFirst + j < startDate →
      (computeShifts teachers ov startDate monthFirst monthLen).map
          (fun l => l.get? j) =
        some (some { date := monthFirst + j, teacherId := none }))
    ∧ (monthFirst + monthLen ≤ startDate →
      (computeShifts teachers ov startDate monthFirst monthLen).map
          (fun l => l.get? j) =
        some (some { date := monthFirst + j, teacherId := none })) := by
  have key : monthFirst + j < startDate →
      (computeShifts teachers ov startDate monthFirst monthLen).map
          (fun l => l.get? j) =
        some (some { date := monthFirst + j, teacherId := none }) := by
    intro hbefore
    rw [computeShifts_eq, Option.map_some', get?_of_range_map _ hj]
    simp [monthAssign, hbefore]
  exact ⟨key, fun h => key (by omega)⟩

/-- C2: with no overrides and the start date on the first day of the
visible month, day k of the month (0-based here) is assigned the id of
teachers[k mod roster length]; in particular day 0 gets teachers[0]. -/
theorem rotation_cycles_in_order (teachers : List Teacher)
    (monthFirst monthLen k : Nat) (h : teachers.length ≠ 0) (hk : k < monthLen) :
    (computeShifts teachers (fun _ => none) monthFirst monthFirst monthLen).map
        (fun l => l.get? k) =
      some (some ⟨monthFirst + k,
        (teachers.get? (k % teachers.length)).map (fun t => t.id)⟩) := by
  rw [computeShifts_eq, Option.map_some', get?_of_range_map _ hk]
  have h1 : ¬ monthFirst + k < monthFirst := by omega
  have h2 : monthFirst + k - monthFirst = k := by omega
  simp only [monthAssign, if_neg h, if_neg h1, h2, cursorFrom_none, Nat.zero_add]
  simp [assignAt]

/-- C8: for a non-empty roster, with any cursor value that is a natural
number (it starts at 0 and is only ever incremented or reset to a roster
index plus one), the day-by-day walk never fails: the roster access of
the rotation branch is always in bounds.  Consequently computeShifts
always succeeds. -/
theorem cursor_always_in_bounds (teachers : List Teacher) (ov : Overrides)
    (startDate monthFirst monthLen n ptr c : Nat) (h : teachers.length ≠ 0) :
    (∃ l, fullScheduleAux teachers ov n ptr (Int.ofNat c) = some l)
    ∧ ∃ shifts, computeShifts teachers ov startDate monthFirst monthLen = some shifts :=
  ⟨⟨_, fullScheduleAux_eq teachers ov h n ptr c⟩,
   ⟨_, computeShifts_eq teachers ov startDate monthFirst monthLen⟩⟩

/-- C4: an explicit-empty override on a date on or after the start date
makes the generator assign null there without advancing the rotation
cursor, so rotation resumes exactly where it left off; the second
conjunct is the concrete scenario with roster [A,B], start on day 0 and
an empty override on day 2 (days 0..4 come out A, B, null, A, B). -/
theorem empty_sentinel_null_no_advance (teachers : List Teacher) (ov : Overrides)
    (startDate monthFirst monthLen d j : Nat) (h : teachers.length ≠ 0)
    (hov : ov d = some "__EMPTY__") (hstart : startDate ≤ d) (hj : j < monthLen)
    (hd : monthFirst + j = d) :
    ((computeShifts teachers ov startDate monthFirst monthLen).map
        (fun l => l.get? j) =
      some (some ⟨d, none⟩)
    ∧ ∀ c, cursorStep teachers ov d c = c)
    ∧ (computeShifts [⟨"A", "A"⟩, ⟨"B", "B"⟩]
          (fun x => if x = 2 then some "__EMPTY__" else none) 0 0 31).map
        (fun l => (l.get? 0, l.get? 1, l.get? 2, l.get? 3, l.get? 4)) =
      some (some ⟨0, some "A"⟩, some ⟨1, some "B"⟩, some ⟨2, none⟩,
        some ⟨3, some "A"⟩, some ⟨4, some "B"⟩) := by
  refine ⟨⟨?_, ?_⟩, ?_⟩
  · rw [computeShifts_eq, Option.map_some', get?_of_range_map _ hj, hd]
    simp [monthAssign, h, Nat.not_lt.mpr hstart, assignAt, hov]
  · intro c
    simp [cursorStep, hov]
  · decide

/-- Replacing a stale override (a non-empty id absent from the roster)
with the explicit-empty sentinel does not change the walk at all. -/
theorem fullScheduleAux_stale_eq_empty (teachers : List Teacher) (ov : Overrides)
    (d : Nat) (staleId : String) (hne : staleId ≠ "")
    (hidx : teacherIndexMap teachers staleId = none) (hov : ov d = some staleId)
    (n : Nat) :
    ∀ (ptr : Nat) (cursor : Int),
      fullScheduleAux teachers ov n ptr cursor =
        fullScheduleAux teachers
          (fun x => if x = d then some "__EMPTY__" else ov x) n ptr cursor := by
  induction n with
  | zero => intro ptr cursor; rfl
  | succ n ih =>
    intro ptr cursor
    by_cases hptr : ptr = d
    · subst hptr
      by_cases hse : staleId = "__EMPTY__"
      · subst hse
        simp only [fullScheduleAux, hov]
        simp [ih]
      · simp only [fullScheduleAux, hov]
        simp [hne, hse, hidx, ih]
    · have hov2 : (fun x => if x = d then some "__EMPTY__" else ov x) ptr =
          ov ptr := if_neg hptr
      simp only [fullScheduleAux, hov2, ih]

/-- C5: an override holding a non-empty teacher id that is absent from
the roster resolves to null, does not move the rotation cursor, and the
whole generated month is identical to what the explicit-empty sentinel
on that date would produce. -/
theorem stale_override_inert (teachers : List Teacher) (ov : Overrides)
    (d : Nat) (staleId : String) (startDate monthFirst monthLen j : Nat)
    (hne : staleId ≠ "") (hidx : teacherIndexMap teachers staleId = none)
    (hov : ov d = some staleId) (hstart : startDate ≤ d) (hj : j < monthLen)
    (hd : monthFirst + j = d) :
    computeShifts teachers ov startDate monthFirst monthLen =
      computeShifts teachers (fun x => if x = d then some "__EMPTY__" else ov x)
        startDate monthFirst monthLen
    ∧ (computeShifts teachers ov startDate monthFirst monthLen).map
        (fun l => l.get? j) =
      some (some ⟨d, none⟩)
    ∧ ∀ c, cursorStep teachers ov d c = c := by
  refine ⟨?_, ?_, ?_⟩
  · by_cases h0 : teachers.length = 0
    · simp [computeShifts, h0]
    · by_cases hLast : monthFirst + monthLen - 1 < startDate
      · simp [computeShifts, h0, hLast]
      · simp only [computeShifts, if_neg h0, if_neg hLast]
        rw [fullScheduleAux_stale_eq_empty teachers ov d staleId hne hidx hov _
          startDate 0]
  · rw [computeShifts_eq, Option.map_some', get?_of_range_map _ hj, hd]
    by_cases h0 : teachers.length = 0
    · simp [monthAssign, h0]
    · simp [monthAssign, h0, Nat.not_lt.mpr hstart, assignAt, hov, hne, hidx]
  · intro c
    simp [cursorStep, hov, hne, hidx]

/-- C3 counterexample: roster [A,B,C], overrides day 0 -> C (present,
index 2) and day 1 -> A (present), day 2 unoverridden, start day 0.
The claim predicts that day 2 (the next day after day 0 with no
override) is assigned teachers[(2+1) mod 3] = A, but the generator
assigns B: the intervening present-teacher override on day 1 re-reset
the cursor. -/
theorem override_resync_cex :
    (computeShifts [⟨"A", "A"⟩, ⟨"B", "B"⟩, ⟨"C", "C"⟩]
        (fun x => if x = 0 then some "C" else if x = 1 then some "A" else none)
        0 0 3).map (fun l => (l.get? 0, l.get? 1, l.get? 2)) =
      some (some ⟨0, some "C"⟩, some ⟨1, some "A"⟩, some ⟨2, some "B"⟩)
    ∧ teacherIndexMap [⟨"A", "A"⟩, ⟨"B", "B"⟩, ⟨"C", "C"⟩] "C" = some 2
    ∧ (([⟨"A", "A"⟩, ⟨"B", "B"⟩, ⟨"C", "C"⟩] : List Teacher).get?
        ((2 + 1) % 3)).map (fun t => t.id) = some "A"
    ∧ ((fun x => if x = 0 then some "C" else if x = 1 then some "A" else none)
        (2 : Nat) : Option String) = none
    ∧ (some "B" : Option String) ≠ some "A" := by
  decide

/-- C3 amended: an override to a teacher id T present in the roster on a
date d on or after the start date makes the generator assign T to d and
reset the cursor to (index of T) + 1, so the next day e after d with no
override is assigned teachers[(index(T)+1) mod length] PROVIDED every
day strictly between d and e carries an override that does not itself
reset the cursor (the explicit-empty sentinel or a stale id). -/
theorem override_resync_amended (teachers : List Teacher) (ov : Overrides)
    (startDate monthFirst monthLen : Nat) (T : String) (i : Nat) (d e jd je : Nat)
    (h0 : teachers.length ≠ 0)
    (hT1 : T ≠ "") (hT2 : T ≠ "__EMPTY__")
    (hTi : teacherIndexMap teachers T = some i)
    (hovd : ov d = some T)
    (hstart : startDate ≤ d) (hde : d < e)
    (hmid : ∀ x, d < x → x < e → ∃ s, ov x = some s ∧ s ≠ "" ∧
      (s = "__EMPTY__" ∨ teacherIndexMap teachers s = none))
    (hove : ov e = none)
    (hjd : jd < monthLen) (hje : je < monthLen)
    (hd : monthFirst + jd = d) (he : monthFirst + je = e) :
    (computeShifts teachers ov startDate monthFirst monthLen).map
        (fun l => (l.get? jd, l.get? je)) =
      some (some ⟨d, some T⟩,
        some ⟨e, (teachers.get? ((i + 1) % teachers.length)).map (fun t => t.id)⟩)
    ∧ ∀ c, cursorStep teachers ov d c = i + 1 := by
  constructor
  · rw [computeShifts_eq, Option.map_some']
    simp only [get?_of_range_map _ hjd, get?_of_range_map _ hje, hd, he]
    have hAd : monthAssign teachers ov startDate d = some T := by
      simp [monthAssign, h0, Nat.not_lt.mpr hstart, assignAt, hovd, hT1, hT2, hTi]
    have hstarte : startDate ≤ e := by omega
    have hcursor : cursorFrom teachers ov 0 startDate (e - startDate) = i + 1 := by
      have hsplit : e - startDate = (d - startDate + 1) + (e - d - 1) := by omega
      rw [hsplit, cursorFrom_add teachers ov (d - startDate + 1) (e - d - 1) 0 startDate]
      have h1 : cursorFrom teachers ov 0 startDate (d - startDate + 1) = i + 1 := by
        rw [cursorFrom_add teachers ov (d - startDate) 1 0 startDate]
        have hsd : startDate + (d - startDate) = d := by omega
        rw [hsd]
        show cursorStep teachers ov d _ = i + 1
        simp [cursorStep, hovd, hT1, hT2, hTi]
      rw [h1]
      have hptr : startDate + (d - startDate + 1) = d + 1 := by omega
      rw [hptr]
      apply cursorFrom_inert
      intro x c' hx1 hx2
      obtain ⟨s, hs, hs1, hs2⟩ := hmid x (by omega) (by omega)
      rcases hs2 with hcase | hcase
      · simp [cursorStep, hs, hs1, hcase]
      · simp [cursorStep, hs, hs1, hcase]
    have hAe : monthAssign teachers ov startDate e =
        (teachers.get? ((i + 1) % teachers.length)).map (fun t => t.id) := by
      simp [monthAssign, h0, Nat.not_lt.mpr hstarte, assignAt, hove, hcursor]
    rw [hAd, hAe]
  · intro c
    simp [cursorStep, hovd, hT1, hT2, hTi]

/-- C1 counterexample: state with roster [A,B,C], an override mapping
day 1 to B, no colors.  Deleting B removes the override entry for day 1
from the map (the claim says it remains present), and the subsequent
recomputation assigns day 1 by rotation (teacher C of the remaining
roster [A,C]) rather than null (the claim says it resolves to null). -/
theorem deleted_override_retained_cex :
    (handleDeleteTeacher
        { teachers := [⟨"A", "A"⟩, ⟨"B", "B"⟩, ⟨"C", "C"⟩],
          scheduleStartDate := "2024-01-01",
          manualChanges := fun x => if x = 1 then some "B" else none,
          dateColors := fun _ => none } "B").manualChanges 1 = none
    ∧ ((fun x => if x = 1 then some "B" else none) (1 : Nat) : Option String) =
        some "B"
    ∧ (computeShifts
        (handleDeleteTeacher
          { teachers := [⟨"A", "A"⟩, ⟨"B", "B"⟩, ⟨"C", "C"⟩],
            scheduleStartDate := "2024-01-01",
            manualChanges := fun x => if x = 1 then some "B" else none,
            dateColors := fun _ => none } "B").teachers
        (handleDeleteTeacher
          { teachers := [⟨"A", "A"⟩, ⟨"B", "B"⟩, ⟨"C", "C"⟩],
            scheduleStartDate := "2024-01-01",
            manualChanges := fun x => if x = 1 then some "B" else none,
            dateColors := fun _ => none } "B").manualChanges 0 0 31).map
        (fun l => l.get? 1) = some (some ⟨1, some "C"⟩) := by
  refine ⟨rfl, rfl, ?_⟩
  decide

/-- C1 amended: after a teacher is deleted from the roster, every
override map entry whose value is that teacher id is REMOVED from the
override map, entries with other values are kept unchanged, absent
entries stay absent, and the deleted id no longer occurs in the roster
(so later recomputations treat the formerly overridden dates as plain
rotation days). -/
theorem deleted_override_removed (s : AppState) (tid : String) (d : Nat) :
    (s.manualChanges d = some tid →
      (handleDeleteTeacher s tid).manualChanges d = none)
    ∧ (∀ v, s.manualChanges d = some v → v ≠ tid →
      (handleDeleteTeacher s tid).manualChanges d = some v)
    ∧ (s.manualChanges d = none →
      (handleDeleteTeacher s tid).manualChanges d = none)
    ∧ ∀ t, t ∈ (handleDeleteTeacher s tid).teachers → t.id ≠ tid := by
  refine ⟨?_, ?_, ?_, ?_⟩
  · intro hval
    simp [handleDeleteTeacher, hval]
  · intro v hval hvne
    simp [handleDeleteTeacher, hval, hvne]
  · intro hval
    simp [handleDeleteTeacher, hval]
  · intro t ht
    have := List.of_mem_filter ht
    simpa using this

/-- C9: changing the schedule start date to any non-empty value also
resets the whole override map and the whole per-date color map to empty,
leaving the roster untouched. -/
theorem start_date_change_resets (s : AppState) (newDate : String)
    (h : newDate ≠ "") :
    (handleStartDateChange s newDate).scheduleStartDate = newDate
    ∧ (∀ d, (handleStartDateChange s newDate).manualChanges d = none)
    ∧ (∀ d, (handleStartDateChange s newDate).dateColors d = none)
    ∧ (handleStartDateChange s newDate).teachers = s.teachers := by
  simp [handleStartDateChange, h]

/-- C10: clearing a day (handleClearShift, which is handleUpdateShift
with null) stores the __EMPTY__ sentinel under the date key instead of
removing the key; no per-date update ever turns a present key absent;
and the generator afterwards assigns null to the cleared date. -/
theorem clear_stores_empty_sentinel (s : AppState) (d : Nat) :
    (handleClearShift s d).manualChanges d = some "__EMPTY__"
    ∧ (handleUpdateShift s d none).manualChanges d = some "__EMPTY__"
    ∧ handleClearShift s d = handleUpdateShift s d none
    ∧ (∀ tid d', (handleUpdateShift s d tid).manualChanges d' = none →
        s.manualChanges d' = none ∧ d' ≠ d)
    ∧ ∀ startDate monthFirst monthLen j, startDate ≤ d → j < monthLen →
        monthFirst + j = d →
        (computeShifts s.teachers ((handleClearShift s d).manualChanges)
            startDate monthFirst monthLen).map (fun l => l.get? j) =
          some (some ⟨d, none⟩) := by
  refine ⟨?_, ?_, rfl, ?_, ?_⟩
  · simp [handleClearShift, handleUpdateShift]
  · simp [handleUpdateShift]
  · intro tid d' hnone
    by_cases hd' : d' = d
    · subst hd'
      simp [handleUpdateShift] at hnone
    · refine ⟨?_, hd'⟩
      simpa [handleUpdateShift, hd'] using hnone
  · intro startDate monthFirst monthLen j hstart hj hd
    rw [computeShifts_eq, Option.map_some', get?_of_range_map _ hj, hd]
    by_cases h0 : s.teachers.length = 0
    · simp [monthAssign, h0]
    · have hov : (handleClearShift s d).manualChanges d = some "__EMPTY__" := by
        simp [handleClearShift, handleUpdateShift]
      simp [monthAssign, h0, Nat.not_lt.mpr hstart, assignAt, hov]

/-! ### Witnesses -/

theorem before_start_always_null_witness :
    (0 : Nat) < 3 ∧ (0 : Nat) + 0 < 5 ∧
    (computeShifts [⟨"A", "A"⟩] (fun x => if x = 0 then some "A" else none)
        5 0 3).map (fun l => l.get? 0) = some (some ⟨0, none⟩) :=
  ⟨by decide, by decide,
   (before_start_always_null [⟨"A", "A"⟩]
      (fun x => if x = 0 then some "A" else none) 5 0 3 0 (by decide)).1 (by decide)⟩

theorem rotation_cycles_in_order_witness :
    ([⟨"A", "A"⟩, ⟨"B", "B"⟩, ⟨"C", "C"⟩] : List Teacher).length ≠ 0
    ∧ (30 : Nat) < 31
    ∧ (computeShifts [⟨"A", "A"⟩, ⟨"B", "B"⟩, ⟨"C", "C"⟩] (fun _ => none)
        0 0 31).map (fun l => l.get? 30) = some (some ⟨30, some "A"⟩) :=
  ⟨by decide, by decide,
   rotation_cycles_in_order [⟨"A", "A"⟩, ⟨"B", "B"⟩, ⟨"C", "C"⟩] 0 31 30
     (by decide) (by decide)⟩

theorem cursor_always_in_bounds_witness :
    ([⟨"A", "A"⟩] : List Teacher).length ≠ 0
    ∧ (∃ l, fullScheduleAux [⟨"A", "A"⟩] (fun _ => none) 3 0 (Int.ofNat 0) = some l)
    ∧ ∃ shifts, computeShifts [⟨"A", "A"⟩] (fun _ => none) 0 0 3 = some shifts :=
  ⟨by decide,
   (cursor_always_in_bounds [⟨"A", "A"⟩] (fun _ => none) 0 0 3 3 0 0 (by decide)).1,
   (cursor_always_in_bounds [⟨"A", "A"⟩] (fun _ => none) 0 0 3 3 0 0 (by decide)).2⟩

theorem empty_sentinel_null_no_advance_witness :
    ([⟨"A", "A"⟩, ⟨"B", "B"⟩] : List Teacher).length ≠ 0
    ∧ ((fun x => if x = 2 then some "__EMPTY__" else none) (2 : Nat) :
        Option String) = some "__EMPTY__"
    ∧ (computeShifts [⟨"A", "A"⟩, ⟨"B", "B"⟩]
        (fun x => if x = 2 then some "__EMPTY__" else none) 0 0 31).map
        (fun l => l.get? 2) = some (some ⟨2, none⟩)
    ∧ cursorStep [⟨"A", "A"⟩, ⟨"B", "B"⟩]
        (fun x => if x = 2 then some "__EMPTY__" else none) 2 2 = 2 :=
  ⟨by decide, by decide,
   ((empty_sentinel_null_no_advance [⟨"A", "A"⟩, ⟨"B", "B"⟩]
      (fun x => if x = 2 then some "__EMPTY__" else none) 0 0 31 2 2
      (by decide) (by decide) (by decide) (by decide) (by decide)).1).1,
   ((empty_sentinel_null_no_advance [⟨"A", "A"⟩, ⟨"B", "B"⟩]
      (fun x => if x = 2 then some "__EMPTY__" else none) 0 0 31 2 2
      (by decide) (by decide) (by decide) (by decide) (by decide)).1).2 2⟩

theorem stale_override_inert_witness :
    teacherIndexMap [⟨"A", "A"⟩, ⟨"B", "B"⟩] "X" = none
    ∧ ((fun x => if x = 1 then some "X" else none) (1 : Nat) :
        Option String) = some "X"
    ∧ (computeShifts [⟨"A", "A"⟩, ⟨"B", "B"⟩]
        (fun x => if x = 1 then some "X" else none) 0 0 5).map
        (fun l => l.get? 1) = some (some ⟨1, none⟩)
    ∧ cursorStep [⟨"A", "A"⟩, ⟨"B", "B"⟩]
        (fun x => if x = 1 then some "X" else none) 1 7 = 7 :=
  ⟨by decide, by decide,
   (stale_override_inert [⟨"A", "A"⟩, ⟨"B", "B"⟩]
      (fun x => if x = 1 then some "X" else none) 1 "X" 0 0 5 1
      (by decide) (by decide) (by decide) (by decide) (by decide) (by decide)).2.1,
   (stale_override_inert [⟨"A", "A"⟩, ⟨"B", "B"⟩]
      (fun x => if x = 1 then some "X" else none) 1 "X" 0 0 5 1
      (by decide) (by decide) (by decide) (by decide) (by decide) (by decide)).2.2 7⟩

theorem override_resync_amended_witness :
    teacherIndexMap [⟨"A", "A"⟩, ⟨"B", "B"⟩, ⟨"C", "C"⟩] "B" = some 1
    ∧ ((fun x => if x = 1 then some "B" else none) (1 : Nat) :
        Option String) = some "B"
    ∧ (computeShifts [⟨"A", "A"⟩, ⟨"B", "B"⟩, ⟨"C", "C"⟩]
        (fun x => if x = 1 then some "B" else none) 0 0 31).map
        (fun l => (l.get? 1, l.get? 2)) =
      some (some ⟨1, some "B"⟩, some ⟨2, some "C"⟩)
    ∧ cursorStep [⟨"A", "A"⟩, ⟨"B", "B"⟩, ⟨"C", "C"⟩]
        (fun x => if x = 1 then some "B" else none) 1 5 = 2 :=
  ⟨by decide, by decide,
   (override_resync_amended [⟨"A", "A"⟩, ⟨"B", "B"⟩, ⟨"C", "C"⟩]
      (fun x => if x = 1 then some "B" else none) 0 0 31 "B" 1 1 2 1 2
      (by decide) (by decide) (by decide) (by decide) (by decide) (by decide)
      (by decide)
      (fun x h1 h2 => absurd h2 (by omega)) (by decide)
      (by decide) (by decide) (by decide) (by decide)).1,
   (override_resync_amended [⟨"A", "A"⟩, ⟨"B", "B"⟩, ⟨"C", "C"⟩]
      (fun x => if x = 1 then some "B" else none) 0 0 31 "B" 1 1 2 1 2
      (by decide) (by decide) (by decide) (by decide) (by decide) (by decide)
      (by decide)
      (fun x h1 h2 => absurd h2 (by omega)) (by decide)
      (by decide) (by decide) (by decide) (by decide)).2 5⟩

theorem deleted_override_removed_witness :
    ((fun x => if x = 1 then some "B" else none) (1 : Nat) :
        Option String) = some "B"
    ∧ (handleDeleteTeacher
        { teachers := [⟨"A", "A"⟩, ⟨"B", "B"⟩, ⟨"C", "C"⟩],
          scheduleStartDate := "2024-01-01",
          manualChanges := fun x => if x = 1 then some "B" else none,
          dateColors := fun _ => none } "B").manualChanges 1 = none
    ∧ (handleDeleteTeacher
        { teachers := [⟨"A", "A"⟩, ⟨"B", "B"⟩, ⟨"C", "C"⟩],
          scheduleStartDate := "2024-01-01",
          manualChanges := fun x => if x = 1 then some "B" else none,
          dateColors := fun _ => none } "B").manualChanges 5 = none
    ∧ (⟨"C", "C"⟩ : Teacher).id ≠ "B" :=
  ⟨by decide,
   (deleted_override_removed
      { teachers := [⟨"A", "A"⟩, ⟨"B", "B"⟩, ⟨"C", "C"⟩],
        scheduleStartDate := "2024-01-01",
        manualChanges := fun x => if x = 1 then some "B" else none,
        dateColors := fun _ => none } "B" 1).1 rfl,
   (deleted_override_removed
      { teachers := [⟨"A", "A"⟩, ⟨"B", "B"⟩, ⟨"C", "C"⟩],
        scheduleStartDate := "2024-01-01",
        manualChanges := fun x => if x = 1 then some "B" else none,
        dateColors := fun _ => none } "B" 5).2.2.1 rfl,
   (deleted_override_removed
      { teachers := [⟨"A", "A"⟩, ⟨"B", "B"⟩, ⟨"C", "C"⟩],
        scheduleStartDate := "2024-01-01",
        manualChanges := fun x => if x = 1 then some "B" else none,
        dateColors := fun _ => none } "B" 1).2.2.2 ⟨"C", "C"⟩ (by decide)⟩

theorem start_date_change_resets_witness :
    ("2024-02-01" : String) ≠ ""
    ∧ (handleStartDateChange
        { teachers := [⟨"A", "A"⟩],
          scheduleStartDate := "2024-01-01",
          manualChanges := fun x => if x = 3 then some "A" else none,
          dateColors := fun x => if x = 3 then some "#ffffff" else none }
        "2024-02-01").scheduleStartDate = "2024-02-01"
    ∧ (handleStartDateChange
        { teachers := [⟨"A", "A"⟩],
          scheduleStartDate := "2024-01-01",
          manualChanges := fun x => if x = 3 then some "A" else none,
          dateColors := fun x => if x = 3 then some "#ffffff" else none }
        "2024-02-01").manualChanges 3 = none
    ∧ (handleStartDateChange
        { teachers := [⟨"A", "A"⟩],
          scheduleStartDate := "2024-01-01",
          manualChanges := fun x => if x = 3 then some "A" else none,
          dateColors := fun x => if x = 3 then some "#ffffff" else none }
        "2024-02-01").dateColors 3 = none :=
  ⟨by decide,
   (start_date_change_resets
      { teachers := [⟨"A", "A"⟩],
        scheduleStartDate := "2024-01-01",
        manualChanges := fun x => if x = 3 then some "A" else none,
        dateColors := fun x => if x = 3 then some "#ffffff" else none }
      "2024-02-01" (by decide)).1,
   (start_date_change_resets
      { teachers := [⟨"A", "A"⟩],
        scheduleStartDate := "2024-01-01",
        manualChanges := fun x => if x = 3 then some "A" else none,
        dateColors := fun x => if x = 3 then some "#ffffff" else none }
      "2024-02-01" (by decide)).2.1 3,
   (start_date_change_resets
      { teachers := [⟨"A", "A"⟩],
        scheduleStartDate := "2024-01-01",
        manualChanges := fun x => if x = 3 then some "A" else none,
        dateColors := fun x => if x = 3 then some "#ffffff" else none }
      "2024-02-01" (by decide)).2.2.1 3⟩

theorem clear_stores_empty_sentinel_witness :
    (handleClearShift
        { teachers := [⟨"A", "A"⟩, ⟨"B", "B"⟩],
          scheduleStartDate := "2024-01-01",
          manualChanges := fun _ => none,
          dateColors := fun _ => none } 4).manualChanges 4 = some "__EMPTY__"
    ∧ ((fun _ => (none : Option String)) (5 : Nat) = none ∧ (5 : Nat) ≠ 4)
    ∧ (computeShifts [⟨"A", "A"⟩, ⟨"B", "B"⟩]
        ((handleClearShift
          { teachers := [⟨"A", "A"⟩, ⟨"B", "B"⟩],
            scheduleStartDate := "2024-01-01",
            manualChanges := fun _ => none,
            dateColors := fun _ => none } 4).manualChanges) 0 0 31).map
        (fun l => l.get? 4) = some (some ⟨4, none⟩) :=
  ⟨(clear_stores_empty_sentinel
      { teachers := [⟨"A", "A"⟩, ⟨"B", "B"⟩],
        scheduleStartDate := "2024-01-01",
        manualChanges := fun _ => none,
        dateColors := fun _ => none } 4).1,
   (clear_stores_empty_sentinel
      { teachers := [⟨"A", "A"⟩, ⟨"B", "B"⟩],
        scheduleStartDate := "2024-01-01",
        manualChanges := fun _ => none,
        dateColors := fun _ => none } 4).2.2.2.1 (some "A") 5 rfl,
   (clear_stores_empty_sentinel
      { teachers := [⟨"A", "A"⟩, ⟨"B", "B"⟩],
        scheduleStartDate := "2024-01-01",
        manualChanges := fun _ => none,
        dateColors := fun _ => none } 4).2.2.2.2 0 0 31 4
     (by decide) (by decide) (by decide)⟩

end Roster
